import Mathlib

/-
Shallow embedding of the core codec of decode-config.py (Tasmota
configuration decoder) and proofs about its specification claims.

Each definition mirrors one function (or one branch of a function) of
src/decode-config.py; the corresponding source lines are cited in the
doc comments.  Machine integers are modelled as Nat with explicit
masking where the Python code masks; fallible code paths (calls of
exit_ with doexit=True, or with doexit=not ARGS.ignorewarning under the
strict policy) are modelled with Except.
-/

namespace DecodeConfig

/-- Constant CONFIG_FILE_XOR = 0x5A (line 253). -/
def CONFIG_FILE_XOR : Nat := 0x5A

/-- Constant BINARYFILE_MAGIC = 0x63576223 (line 254). -/
def BINARYFILE_MAGIC : Nat := 0x63576223

/-- Constant HIDDEN_PASSWORD (line 256). -/
def HIDDEN_PASSWORD : String := "********"

/-- Constant PLATFORMS (line 514). -/
def PLATFORMS : List String := ["ESP82xx", "ESP32"]

namespace ExitCode

/-- ExitCode.OK (line 169). -/
def OK : Nat := 0

/-- ExitCode.DATA_SIZE_MISMATCH (line 173). -/
def DATA_SIZE_MISMATCH : Nat := 4

/-- ExitCode.DATA_CRC_ERROR (line 174). -/
def DATA_CRC_ERROR : Nat := 5

/-- ExitCode.UNSUPPORTED_VERSION (line 175). -/
def UNSUPPORTED_VERSION : Nat := 6

/-- ExitCode.RESTORE_DATA_ERROR (line 178). -/
def RESTORE_DATA_ERROR : Nat := 9

/-- ExitCode.INVALID_DATA (line 181). -/
def INVALID_DATA : Nat := 12

/-- ExitCode.INTERNAL_ERROR (line 183). -/
def INTERNAL_ERROR : Nat := 21

end ExitCode

/-- Embedding of decrypt_encrypt (lines 2217-2232).  The Python loop
copies the first two bytes unchanged (dobj = bytearray(obj[0:2])) and
appends (obj[i] XOR (CONFIG_FILE_XOR + i)) AND 0xff for every index
i in [2, len(obj)); the result list here is produced index by index,
which yields exactly that byte sequence. -/
def decrypt_encrypt (obj : List Nat) : List Nat :=
  (List.range obj.length).map
    (fun i => if i < 2 then obj.getD i 0
              else (obj.getD i 0 ^^^ (CONFIG_FILE_XOR + i)) &&& 0xff)

theorem decrypt_encrypt_length (obj : List Nat) :
    (decrypt_encrypt obj).length = obj.length := by
  simp [decrypt_encrypt]

theorem decrypt_encrypt_getD (obj : List Nat) (i : Nat) (h : i < obj.length) :
    (decrypt_encrypt obj).getD i 0 =
      if i < 2 then obj.getD i 0
      else (obj.getD i 0 ^^^ (CONFIG_FILE_XOR + i)) &&& 0xff := by
  simp [decrypt_encrypt, List.getD_eq_getElem?_getD, List.getElem?_map,
    List.getElem?_range h]

theorem testBit_255 (i : Nat) : (255 : Nat).testBit i = decide (i < 8) := by
  have h := Nat.testBit_two_pow_sub_one 8 i
  norm_num at h
  exact h

theorem testBit_mod_256 (k i : Nat) :
    (k % 256).testBit i = (decide (i < 8) && k.testBit i) := by
  have h := Nat.testBit_mod_two_pow k 8 i
  norm_num at h
  exact h

theorem byte_mask_xor (x k : Nat) (hx : x < 256) :
    (x ^^^ k) &&& 0xff = x ^^^ (k % 256) := by
  apply Nat.eq_of_testBit_eq
  intro i
  rcases Nat.lt_or_ge i 8 with hi | hi
  · simp [Nat.testBit_and, Nat.testBit_xor, testBit_255, testBit_mod_256, hi]
  · have hxi : x.testBit i = false :=
      Nat.testBit_lt_two_pow (lt_of_lt_of_le hx (by
        calc (256 : Nat) = 2 ^ 8 := by norm_num
        _ ≤ 2 ^ i := Nat.pow_le_pow_right (by norm_num) hi))
    have hki : (k % 256).testBit i = false := by
      rw [testBit_mod_256]
      simp [Nat.not_lt.mpr hi]
    simp [Nat.testBit_and, Nat.testBit_xor, testBit_255, hxi, hki,
      Nat.not_lt.mpr hi]

theorem byte_mask_xor_twice (x k : Nat) (hx : x < 256) :
    (((x ^^^ k) &&& 0xff) ^^^ k) &&& 0xff = x := by
  rw [byte_mask_xor _ _ hx]
  have hlt : x ^^^ k % 256 < 256 := by
    have h256 : (256 : Nat) = 2 ^ 8 := by norm_num
    rw [h256]
    exact Nat.xor_lt_two_pow (h256 ▸ hx) (h256 ▸ Nat.mod_lt _ (by norm_num))
  rw [byte_mask_xor _ _ hlt, Nat.xor_assoc, Nat.xor_self, Nat.xor_zero]

theorem getD_lt_256 (obj : List Nat) (hb : ∀ x ∈ obj, x < 256) (i : Nat) :
    obj.getD i 0 < 256 := by
  rcases Nat.lt_or_ge i obj.length with h | h
  · rw [List.getD_eq_getElem _ _ h]
    exact hb _ (List.getElem_mem h)
  · rw [List.getD_eq_default _ _ h]
    norm_num

/-- C3: the XOR stream transform decrypt_encrypt is self-inverse on byte
sequences of length at least 2, passes the first two bytes through
unchanged, and maps every byte at index i greater or equal 2 to
b[i] XOR ((0x5A + i) mod 256). -/
theorem c3_decrypt_encrypt_stream (obj : List Nat)
    (hlen : 2 ≤ obj.length) (hb : ∀ x ∈ obj, x < 256) :
    decrypt_encrypt (decrypt_encrypt obj) = obj ∧
    (∀ i, i < 2 → (decrypt_encrypt obj).getD i 0 = obj.getD i 0) ∧
    (∀ i, 2 ≤ i → i < obj.length →
      (decrypt_encrypt obj).getD i 0 =
        obj.getD i 0 ^^^ ((CONFIG_FILE_XOR + i) % 256)) := by
  refine ⟨?_, ?_, ?_⟩
  · apply List.ext_getElem
    · rw [decrypt_encrypt_length, decrypt_encrypt_length]
    · intro i h1 h2
      rw [← List.getD_eq_getElem _ 0 h1, ← List.getD_eq_getElem _ 0 h2]
      have hi1 : i < (decrypt_encrypt obj).length := by
        rwa [decrypt_encrypt_length]
      rw [decrypt_encrypt_getD _ _ hi1, decrypt_encrypt_getD _ _ h2]
      rcases Nat.lt_or_ge i 2 with h | h
      · simp [h]
      · simp only [Nat.not_lt.mpr h, if_false]
        exact byte_mask_xor_twice _ _ (getD_lt_256 obj hb i)
  · intro i hi
    rw [decrypt_encrypt_getD _ _ (lt_of_lt_of_le hi hlen)]
    simp [hi]
  · intro i h2 hlt
    rw [decrypt_encrypt_getD _ _ hlt]
    simp only [Nat.not_lt.mpr h2, if_false]
    exact byte_mask_xor _ _ (getD_lt_256 obj hb i)

/-- Witness for C3 at the concrete byte sequence [7, 200, 36]. -/
theorem c3_decrypt_encrypt_stream_witness :
    decrypt_encrypt (decrypt_encrypt [7, 200, 36]) = [7, 200, 36] :=
  (c3_decrypt_encrypt_stream [7, 200, 36] (by decide) (by decide)).1

/-- One entry of the SETTINGS registry (lines 1530-1615): the version
number, the template size and whether the setting dict defines a
config_version field (only SETTING_8_2_0_4 does, line 1527). -/
structure SettingEntry where
  version : Nat
  size : Nat
  hasConfigVersion : Bool
deriving DecidableEq, Repr

set_option maxHeartbeats 2000000 in
/-- Embedding of the SETTINGS registry list (lines 1530-1615), in source
order.  The schema dicts themselves are reduced to the data the claims
need: version, size and presence of the config_version field. -/
def SETTINGS : List SettingEntry := [
  ⟨0x8020004, 0x1000, true⟩,
  ⟨0x8020003, 0x1000, false⟩,
  ⟨0x8020000, 0x1000, false⟩,
  ⟨0x801000B, 0x1000, false⟩,
  ⟨0x801000A, 0x1000, false⟩,
  ⟨0x8010009, 0x1000, false⟩,
  ⟨0x8010006, 0x1000, false⟩,
  ⟨0x8010005, 0x1000, false⟩,
  ⟨0x8010004, 0x1000, false⟩,
  ⟨0x8010003, 0x1000, false⟩,
  ⟨0x8010002, 0x1000, false⟩,
  ⟨0x8010001, 0x1000, false⟩,
  ⟨0x8010000, 0x1000, false⟩,
  ⟨0x8000001, 0x1000, false⟩,
  ⟨0x7010206, 0x1000, false⟩,
  ⟨0x7010205, 0x1000, false⟩,
  ⟨0x7010203, 0x1000, false⟩,
  ⟨0x7010202, 0x1000, false⟩,
  ⟨0x7000006, 0x1000, false⟩,
  ⟨0x7000005, 0x1000, false⟩,
  ⟨0x7000004, 0x1000, false⟩,
  ⟨0x7000003, 0x1000, false⟩,
  ⟨0x7000002, 0x1000, false⟩,
  ⟨0x7000001, 0x1000, false⟩,
  ⟨0x6060015, 0x1000, false⟩,
  ⟨0x6060014, 0x1000, false⟩,
  ⟨0x6060012, 0x1000, false⟩,
  ⟨0x606000F, 0x1000, false⟩,
  ⟨0x606000E, 0x1000, false⟩,
  ⟨0x606000D, 0x1000, false⟩,
  ⟨0x606000C, 0x1000, false⟩,
  ⟨0x606000B, 0x1000, false⟩,
  ⟨0x606000A, 0x1000, false⟩,
  ⟨0x6060009, 0x1000, false⟩,
  ⟨0x6060008, 0x1000, false⟩,
  ⟨0x6060007, 0x1000, false⟩,
  ⟨0x6060006, 0xe00, false⟩,
  ⟨0x6060005, 0xe00, false⟩,
  ⟨0x6060003, 0xe00, false⟩,
  ⟨0x6060002, 0xe00, false⟩,
  ⟨0x6060001, 0xe00, false⟩,
  ⟨0x605000F, 0xe00, false⟩,
  ⟨0x605000C, 0xe00, false⟩,
  ⟨0x605000B, 0xe00, false⟩,
  ⟨0x605000A, 0xe00, false⟩,
  ⟨0x6050009, 0xe00, false⟩,
  ⟨0x6050007, 0xe00, false⟩,
  ⟨0x6050006, 0xe00, false⟩,
  ⟨0x6050003, 0xe00, false⟩,
  ⟨0x6040112, 0xe00, false⟩,
  ⟨0x6040111, 0xe00, false⟩,
  ⟨0x6040110, 0xe00, false⟩,
  ⟨0x604010D, 0xe00, false⟩,
  ⟨0x604010B, 0xe00, false⟩,
  ⟨0x6040108, 0xe00, false⟩,
  ⟨0x6040107, 0xe00, false⟩,
  ⟨0x6040104, 0xe00, false⟩,
  ⟨0x6040002, 0xe00, false⟩,
  ⟨0x6030010, 0xe00, false⟩,
  ⟨0x603000F, 0xe00, false⟩,
  ⟨0x603000E, 0xe00, false⟩,
  ⟨0x603000D, 0xe00, false⟩,
  ⟨0x603000B, 0xe00, false⟩,
  ⟨0x603000A, 0xe00, false⟩,
  ⟨0x6030008, 0xe00, false⟩,
  ⟨0x6030004, 0xe00, false⟩,
  ⟨0x6030002, 0xe00, false⟩,
  ⟨0x6030000, 0xe00, false⟩,
  ⟨0x6020114, 0xe00, false⟩,
  ⟨0x6020113, 0xe00, false⟩,
  ⟨0x602010E, 0xe00, false⟩,
  ⟨0x602010A, 0xe00, false⟩,
  ⟨0x6020106, 0xe00, false⟩,
  ⟨0x6020103, 0xe00, false⟩,
  ⟨0x6020102, 0xe00, false⟩,
  ⟨0x6020100, 0xe00, false⟩,
  ⟨0x6010100, 0xe00, false⟩,
  ⟨0x6000000, 0xe00, false⟩,
  ⟨0x50e0000, 0xa00, false⟩,
  ⟨0x50d0100, 0xa00, false⟩,
  ⟨0x50c0000, 0x670, false⟩,
  ⟨0x50b0000, 0x670, false⟩,
  ⟨0x50a0000, 0x670, false⟩,
]

/-- The SETTINGS registry is strictly descending by version; hence the
Python sorted(SETTINGS, key=lambda s: s[0], reverse=True) used in
get_config_info (lines 1785, 1796) is the identity on it (Python sort is
stable), and scanning SETTINGS in order scans versions in descending
order. -/
theorem settings_sorted_desc :
    SETTINGS.Pairwise (fun a b => b.version < a.version) := by decide

/-- Embedding of the search loop of get_config_info (lines 1795-1799):
scan the registry in descending version order and stop at the first
entry whose version is at most the config version.  Both loops of
get_config_info (lines 1785-1793 and 1795-1799) perform exactly this
scan. -/
def resolve_entry (version : Nat) : Option SettingEntry :=
  SETTINGS.find? (fun cfg => decide (version ≥ cfg.version))

/-- Result record of get_config_info (lines 1805-1811), without the
schema dict itself. -/
structure ConfigInfo where
  platform : Nat
  version : Nat
  template_version : Nat
  template_size : Nat
deriving DecidableEq, Repr

/-- Embedding of get_config_info (lines 1766-1811) given the decoded
version field and the raw byte stored in the config_version field.
The first loop (lines 1785-1793) identifies the platform: when the
matched setting defines config_version and its value is at least
len(PLATFORMS), the code calls exit_ with the default doexit=True
(line 1791), which terminates the program via sys.exit; the assignment
config_version = PLATFORMS.index("ESP82xx") on the following source
line (1792) is therefore unreachable.  The second loop (lines
1795-1799) selects the template; when no entry qualifies the code
exits with UNSUPPORTED_VERSION (line 1802). -/
def get_config_info (version config_version_raw : Nat) :
    Except Nat ConfigInfo :=
  match resolve_entry version with
  | some cfg =>
    if cfg.hasConfigVersion then
      if config_version_raw ≥ PLATFORMS.length then
        Except.error ExitCode.INVALID_DATA
      else
        Except.ok ⟨config_version_raw, version, cfg.version, cfg.size⟩
    else
      Except.ok ⟨PLATFORMS.indexOf "ESP82xx", version, cfg.version, cfg.size⟩
  | none => Except.error ExitCode.UNSUPPORTED_VERSION

theorem find_le_spec (l : List SettingEntry)
    (hl : l.Pairwise (fun a b => b.version < a.version)) (v : Nat) :
    (∀ e, l.find? (fun cfg => decide (v ≥ cfg.version)) = some e →
       e.version ≤ v ∧ ∀ e2 ∈ l, e2.version ≤ v → e2.version ≤ e.version) ∧
    (l.find? (fun cfg => decide (v ≥ cfg.version)) = none →
       ∀ e2 ∈ l, v < e2.version) := by
  induction l with
  | nil => simp
  | cons a t ih =>
    rcases List.pairwise_cons.mp hl with ⟨ha_all, ht⟩
    rcases ih ht with ⟨ih_some, ih_none⟩
    by_cases hav : a.version ≤ v
    · constructor
      · intro e he
        rw [List.find?_cons_of_pos _ (by simpa using hav)] at he
        cases he
        refine ⟨hav, ?_⟩
        intro e2 he2 _
        rcases List.mem_cons.mp he2 with h | h
        · exact h ▸ Nat.le_refl _
        · exact Nat.le_of_lt (ha_all e2 h)
      · intro hnone
        rw [List.find?_cons_of_pos _ (by simpa using hav)] at hnone
        cases hnone
    · constructor
      · intro e he
        rw [List.find?_cons_of_neg _ (by simpa using hav)] at he
        rcases ih_some e he with ⟨h1, h2⟩
        refine ⟨h1, ?_⟩
        intro e2 he2 hle
        rcases List.mem_cons.mp he2 with h | h
        · exact absurd (h ▸ hle) hav
        · exact h2 e2 h hle
      · intro hnone
        rw [List.find?_cons_of_neg _ (by simpa using hav)] at hnone
        intro e2 he2
        rcases List.mem_cons.mp he2 with h | h
        · exact h ▸ Nat.lt_of_not_le hav
        · exact ih_none hnone e2 h

/-- Property of a resolved registry entry: it belongs to the registry,
its version is at most the decoded version, and it has the greatest
such version among all registry entries. -/
def resolved_is_max (v : Nat) (e : SettingEntry) : Prop :=
  e ∈ SETTINGS ∧ e.version ≤ v ∧
    ∀ e2 ∈ SETTINGS, e2.version ≤ v → e2.version ≤ e.version

/-- C5: schema resolution over the ordered SETTINGS registry selects the
entry with the greatest version_number at most the decoded version, and
when no entry qualifies (the version predates the oldest entry)
get_config_info fails with the UNSUPPORTED_VERSION exit status; it never
picks another entry. -/
theorem c5_schema_resolution (v : Nat) :
    (∀ e, resolve_entry v = some e → resolved_is_max v e) ∧
    (resolve_entry v = none →
      (∀ e2 ∈ SETTINGS, v < e2.version) ∧
      ∀ cvr, get_config_info v cvr =
        Except.error ExitCode.UNSUPPORTED_VERSION) := by
  have hsorted := settings_sorted_desc
  rcases find_le_spec SETTINGS hsorted v with ⟨hsome, hnone⟩
  constructor
  · intro e he
    exact ⟨List.mem_of_find?_eq_some he, hsome e he⟩
  · intro h
    refine ⟨hnone h, ?_⟩
    intro cvr
    unfold get_config_info
    rw [h]

/-- Witness for C5: version 0x8000002 resolves to the registry entry
with version 0x8000001, the greatest entry version at most 0x8000002. -/
theorem c5_schema_resolution_witness :
    resolved_is_max 0x8000002 ⟨0x8000001, 0x1000, false⟩ :=
  (c5_schema_resolution 0x8000002).1 _ (by decide)

/-- C4: a decoded binary whose version field is 0x8020004 (so the active
template defines config_version) and whose config_version byte is 2,
which is at least len(PLATFORMS) = 2, makes get_config_info terminate
with the INVALID_DATA exit status: exit_ is called with the default
doexit=True, so the clamp to the default platform on the following
source line is never reached and processing does not continue. -/
theorem c4_invalid_platform_is_fatal :
    get_config_info 0x8020004 2 = Except.error ExitCode.INVALID_DATA ∧
    ∀ info, get_config_info 0x8020004 2 ≠ Except.ok info := by
  have h : get_config_info 0x8020004 2 =
      Except.error ExitCode.INVALID_DATA := by rfl
  refine ⟨h, ?_⟩
  intro info hok
  rw [h] at hok
  cases hok

/-- Embedding of get_templatesizes (lines 1749-1759): the sizes of all
registry entries, deduplicated (the Python code returns
list(set(sizes))). -/
def get_templatesizes : List Nat :=
  (SETTINGS.map (fun cfg => cfg.size)).dedup

/-- Embedding of the FileType class members (lines 1837-1848). -/
inductive FileType where
  | file_not_found
  | dmp
  | json
  | bin
  | unknown
  | incomplete_json
  | invalid_json
  | invalid_bin
deriving DecidableEq, Repr

/-- Embedding of get_filetype (lines 1850-1895) on the path where the
file opens and its size is readable.  Inputs are the observations the
code makes of the file: whether json.load succeeds, the file size, and
the unsigned 32-bit little-endian words at the first and last four
bytes.  The Python code starts with filetype = UNKNOWN, switches to
INVALID_JSON when the JSON parse raises, and only moves on to DMP, BIN
or INVALID_BIN when the size matches a template size exactly or minus
the four magic bytes; size - struct.calcsize(header_format) is Python
int arithmetic, hence compared over Int. -/
def get_filetype (jsonValid : Bool) (size : Nat) (first4 last4 : Nat) :
    FileType :=
  if jsonValid then FileType.json
  else
    if size ∈ get_templatesizes then FileType.dmp
    else if (size : Int) - 4 ∈ get_templatesizes.map (fun n => (n : Int)) then
      if first4 = BINARYFILE_MAGIC ∨ last4 = BINARYFILE_MAGIC then
        FileType.bin
      else FileType.invalid_bin
    else FileType.invalid_json

/-- Counterexample for C2: a one-byte file whose content is not valid
JSON has a size matching no template size (neither exactly nor minus
the magic marker), yet get_filetype classifies it as INVALID_JSON, not
as UNKNOWN as the claim states. -/
theorem c2_unknown_counterexample :
    get_filetype false 1 0 0 = FileType.invalid_json ∧
    get_filetype false 1 0 0 ≠ FileType.unknown := by
  constructor
  · decide
  · decide

/-- C2 (amended): for every file whose content is not valid JSON and
whose size matches no known template size, neither exactly nor minus
the 4-byte magic marker, get_filetype classifies it as INVALID_JSON
(not UNKNOWN), and never as DMP. -/
theorem c2_no_size_match_invalid_json (size first4 last4 : Nat)
    (h1 : size ∉ get_templatesizes)
    (h2 : (size : Int) - 4 ∉ get_templatesizes.map (fun n => (n : Int))) :
    get_filetype false size first4 last4 = FileType.invalid_json ∧
    get_filetype false size first4 last4 ≠ FileType.dmp := by
  unfold get_filetype
  rw [if_neg (by simp), if_neg h1, if_neg h2]
  exact ⟨rfl, fun h => by cases h⟩

/-- Witness for C2 (amended) at size 1. -/
theorem c2_no_size_match_invalid_json_witness :
    get_filetype false 1 2 3 = FileType.invalid_json ∧
    get_filetype false 1 2 3 ≠ FileType.dmp :=
  c2_no_size_match_invalid_json 1 2 3 (by decide) (by decide)

/-- Embedding of the declared-size check of bin2mapping (lines
3202-3212): when the active template defines a cfg_size field, a
decoded cfg_size greater than the template size calls exit_ with the
default doexit=True (line 3209), terminating with DATA_SIZE_MISMATCH
exactly as a smaller cfg_size does (line 3212); only an equal size
proceeds. -/
def check_cfg_size (cfg_size template_size : Nat) : Except Nat Unit :=
  if cfg_size > template_size then
    Except.error ExitCode.DATA_SIZE_MISMATCH
  else if cfg_size < template_size then
    Except.error ExitCode.DATA_SIZE_MISMATCH
  else Except.ok ()

/-- Counterexample for C1: a declared size 0x1001 against template size
0x1000 (larger than the template size) is not tolerated; bin2mapping
terminates with the DATA_SIZE_MISMATCH exit status instead of
continuing. -/
theorem c1_larger_size_counterexample :
    check_cfg_size 0x1001 0x1000 =
      Except.error ExitCode.DATA_SIZE_MISMATCH ∧
    check_cfg_size 0x1001 0x1000 ≠ Except.ok () := by
  constructor
  · rfl
  · intro h
    cases h

/-- C1 (amended): bin2mapping treats any declared size different from
the template size as fatal (DataSizeMismatch exit), larger as well as
smaller; only an exactly matching size is processed. -/
theorem c1_size_mismatch_fatal (cfg_size template_size : Nat) :
    (cfg_size ≠ template_size →
      check_cfg_size cfg_size template_size =
        Except.error ExitCode.DATA_SIZE_MISMATCH) ∧
    (cfg_size = template_size →
      check_cfg_size cfg_size template_size = Except.ok ()) := by
  constructor
  · intro hne
    unfold check_cfg_size
    rcases Nat.lt_or_gt_of_ne hne with h | h
    · simp [Nat.not_lt.mpr (Nat.le_of_lt h), h]
    · simp [h]
  · intro heq
    subst heq
    simp [check_cfg_size]

/-- Witness for C1 (amended) at declared size 5, template size 4. -/
theorem c1_size_mismatch_fatal_witness :
    check_cfg_size 5 4 = Except.error ExitCode.DATA_SIZE_MISMATCH :=
  (c1_size_mismatch_fatal 5 4).1 (by decide)

/-- Embedding of the bit-field write path of set_field (lines
2987-3011): the current containing word is unpacked from the buffer,
the new value is rejected when it exceeds the field mask
(mask = (1 shl bits) - 1), otherwise value and mask are shifted into
position (left for bitshift at least 0, right for negative bitshift),
the mask bits of the current word are cleared
(value and= 0xffffffff xor mask) and the new bits are merged in
(value or= bitvalue); the merged word is then packed back whole by
set_fieldvalue (lines 2777-2796). -/
def merge_bitfield (word bitvalue bits : Nat) (bitshift : Int) :
    Option Nat :=
  let mask := (1 <<< bits) - 1
  if bitvalue > mask then none
  else
    let bv := if 0 ≤ bitshift then bitvalue <<< bitshift.toNat
              else bitvalue >>> bitshift.natAbs
    let m := if 0 ≤ bitshift then mask <<< bitshift.toNat
             else mask >>> bitshift.natAbs
    some ((word &&& (0xffffffff ^^^ m)) ||| bv)

/-- C6: writing a valid value into a bits-wide sub-field at a
nonnegative bitshift changes only the bits of the containing word in
the sub-range selected by bits and bitshift; every other bit of the
word (in particular every sibling bit-field bit) keeps its previous
value. -/
theorem c6_bitfield_containment (word bitvalue bits s w2 : Nat)
    (hbits : bits ≠ 0)
    (hmerge : merge_bitfield word bitvalue bits (Int.ofNat s) = some w2) :
    ∀ j, j < 32 → (j < s ∨ s + bits ≤ j) →
      w2.testBit j = word.testBit j := by
  intro j hj32 hrange
  unfold merge_bitfield at hmerge
  by_cases hv : bitvalue > (1 <<< bits) - 1
  · rw [if_pos hv] at hmerge
    cases hmerge
  · rw [if_neg hv] at hmerge
    simp only [Int.toNat_ofNat, if_pos (Int.natCast_nonneg s)] at hmerge
    injection hmerge with hw2
    subst hw2
    have hmask : (1 <<< bits) - 1 = 2 ^ bits - 1 := by
      rw [Nat.shiftLeft_eq, one_mul]
    have hbv : bitvalue < 2 ^ bits := by
      rw [hmask] at hv
      have hp : 0 < 2 ^ bits := pow_pos (by norm_num) bits
      omega
    have h32 : (0xffffffff : Nat) = 2 ^ 32 - 1 := by norm_num
    simp only [hmask, h32, Nat.testBit_or, Nat.testBit_and, Nat.testBit_xor,
      Nat.testBit_shiftLeft, Nat.testBit_two_pow_sub_one]
    rcases hrange with hlt | hge
    · have hns : ¬ s ≤ j := Nat.not_le.mpr hlt
      simp [hns, hj32]
    · have hs : s ≤ j := le_trans (Nat.le_add_right s bits) hge
      have hjs : ¬ (j - s < bits) := by omega
      have hbvbit : bitvalue.testBit (j - s) = false :=
        Nat.testBit_lt_two_pow (lt_of_lt_of_le hbv
          (Nat.pow_le_pow_right (by norm_num) (by omega)))
      simp [hs, hjs, hbvbit, hj32]

/-- Witness for C6: writing value 0 into the 2-bit sub-field at
bitshift 2 of the word 0x2B = 0b101011 yields 0x23 = 0b100011; bit 0
outside the sub-field is unchanged. -/
theorem c6_bitfield_containment_witness :
    (0x23 : Nat).testBit 0 = (0x2B : Nat).testBit 0 :=
  c6_bitfield_containment 0x2B 0 2 2 0x23 (by decide) (by rfl) 0
    (by decide) (Or.inl (by decide))

/-- Embedding of the element loop of the array branch of set_field
(lines 2933-2944): for i in range(0, arraydef[0]), when the sub-field
length is not zero, stop as soon as i reaches the length of the
supplied restore list (the list may be shorter than the declared
dimension) and otherwise write element i through the recursive
set_field call at address offset i * elemlen; the element writer is
abstracted as the function f. -/
def array_write_loop {β : Type} (f : List Nat → Nat → β → List Nat)
    (elemlen base : Nat) (rm : List β) :
    Nat → Nat → List Nat → List Nat
  | 0, _, dobj => dobj
  | count + 1, i, dobj =>
    if elemlen ≠ 0 then
      match rm[i]? with
      | none => dobj
      | some x =>
        array_write_loop f elemlen base rm count (i + 1)
          (f dobj (base + i * elemlen) x)
    else array_write_loop f elemlen base rm count (i + 1) dobj

/-- Canonical left-to-right write of a list of elements at consecutive
element offsets, used to state what the loop above writes. -/
def write_fold {β : Type} (f : List Nat → Nat → β → List Nat)
    (elemlen base : Nat) : List β → Nat → List Nat → List Nat
  | [], _, dobj => dobj
  | x :: xs, i, dobj =>
    write_fold f elemlen base xs (i + 1) (f dobj (base + i * elemlen) x)

/-- Embedding of the array branch of set_field (lines 2929-2945): when
the supplied restore list is longer than the declared capacity
arraydef[0], exit_ is called with RESTORE_DATA_ERROR and
doexit=not ARGS.ignorewarning (line 2932); under the strict policy this
terminates, under the lenient policy it prints a warning and the loop
proceeds.  The Bool of a successful result records whether that warning
was issued. -/
def set_field_array {β : Type} (f : List Nat → Nat → β → List Nat)
    (elemlen capacity : Nat) (ignorewarning : Bool)
    (dobj : List Nat) (base : Nat) (rm : List β) :
    Except Nat (Bool × List Nat) :=
  if rm.length > capacity ∧ ignorewarning = false then
    Except.error ExitCode.RESTORE_DATA_ERROR
  else
    Except.ok (decide (rm.length > capacity),
      array_write_loop f elemlen base rm capacity 0 dobj)

theorem array_write_loop_eq {β : Type} (f : List Nat → Nat → β → List Nat)
    (elemlen base : Nat) (rm : List β) (hel : elemlen ≠ 0) :
    ∀ (count i : Nat) (dobj : List Nat),
      array_write_loop f elemlen base rm count i dobj =
        write_fold f elemlen base ((rm.drop i).take count) i dobj := by
  intro count
  induction count with
  | zero =>
    intro i dobj
    simp [array_write_loop, write_fold]
  | succ n ih =>
    intro i dobj
    rw [array_write_loop, if_pos hel]
    rcases h : rm[i]? with _ | x
    · have hlen : rm.length ≤ i := List.getElem?_eq_none_iff.mp h
      rw [List.drop_eq_nil_of_le hlen]
      simp [write_fold]
    · rcases List.getElem?_eq_some_iff.mp h with ⟨hi, hx⟩
      rw [List.drop_eq_getElem_cons hi, hx, List.take_succ_cons, write_fold]
      exact ih (i + 1) (f dobj (base + i * elemlen) x)

/-- C7: for an array field of declared capacity N with non-empty
elements, a supplied restore list longer than N is fatal
(RESTORE_DATA_ERROR) under the strict policy and is truncated to the
first N elements, with a warning, under the ignore-warnings policy; a
list not longer than N is written in full and accepted without
error. -/
theorem c7_array_capacity {β : Type} (f : List Nat → Nat → β → List Nat)
    (elemlen capacity base : Nat) (dobj : List Nat) (rm : List β)
    (hel : elemlen ≠ 0) :
    (rm.length > capacity →
      set_field_array f elemlen capacity false dobj base rm =
        Except.error ExitCode.RESTORE_DATA_ERROR) ∧
    (rm.length > capacity →
      set_field_array f elemlen capacity true dobj base rm =
        Except.ok (true,
          write_fold f elemlen base (rm.take capacity) 0 dobj)) ∧
    (rm.length ≤ capacity →
      ∀ iw, set_field_array f elemlen capacity iw dobj base rm =
        Except.ok (false, write_fold f elemlen base rm 0 dobj)) := by
  refine ⟨?_, ?_, ?_⟩
  · intro hover
    unfold set_field_array
    rw [if_pos ⟨hover, rfl⟩]
  · intro hover
    unfold set_field_array
    rw [if_neg (by simp)]
    rw [array_write_loop_eq f elemlen base rm hel capacity 0 dobj,
      List.drop_zero]
    simp [hover]
  · intro hle iw
    unfold set_field_array
    rw [if_neg (by simp [Nat.not_lt.mpr hle])]
    rw [array_write_loop_eq f elemlen base rm hel capacity 0 dobj,
      List.drop_zero, List.take_of_length_le hle]
    simp [Nat.not_lt.mpr hle]

/-- Witness for C7 at capacity 2: the three-element input [10, 20, 30]
is fatal under the strict policy, truncated to [10, 20] under the
lenient policy, and the two-element input [10, 20] is accepted; the
element writer appends the written address and value to the buffer. -/
theorem c7_array_capacity_witness :
    set_field_array (fun d a x => d ++ [a, x]) 1 2 false [] 0 [10, 20, 30] =
      Except.error ExitCode.RESTORE_DATA_ERROR ∧
    set_field_array (fun d a x => d ++ [a, x]) 1 2 true [] 0 [10, 20, 30] =
      Except.ok (true, [0, 10, 1, 20]) ∧
    set_field_array (fun d a x => d ++ [a, x]) 1 2 false [] 0 [10, 20] =
      Except.ok (false, [0, 10, 1, 20]) := by
  have h := c7_array_capacity (fun d a x => d ++ [a, x]) 1 2 0 [] [10, 20, 30]
    (by decide)
  have h2 := c7_array_capacity (fun d a x => d ++ [a, x]) 1 2 0 [] [10, 20]
    (by decide)
  exact ⟨h.1 (by decide), h.2.1 (by decide), h2.2.2 (by decide) false⟩

/-- Embedding of validate_value (lines 2498-2528).  The validator of a
field definition is either absent (None) or a predicate obtained from
an eval string or a callable; applying it may raise, which the bare
except of the Python code turns into valid = False.  A validator is
therefore modelled as a function into Except: an error value stands
for a raised exception.  The value 0 returns True before the validator
is consulted (lines 2512-2517). -/
def validate_value (value : Int)
    (validate : Option (Int → Except Unit Bool)) : Bool :=
  if value = 0 then true
  else
    match validate with
    | none => true
    | some pred =>
      match pred value with
      | Except.ok b => b
      | Except.error _ => false

/-- C8: validate_value returns True for the value 0 whatever the
validator of the field definition is, even one that rejects 0 or
raises on it. -/
theorem c8_zero_always_valid
    (validate : Option (Int → Except Unit Bool)) :
    validate_value 0 validate = true := by
  simp [validate_value]

/-- Witness for C8 with a validator that rejects every value. -/
theorem c8_zero_always_valid_witness :
    validate_value 0 (some (fun _ => Except.ok false)) = true :=
  c8_zero_always_valid (some (fun _ => Except.ok false))

/-- C10: for a nonzero value on which the field validator raises, the
bare except of validate_value yields False instead of propagating the
exception. -/
theorem c10_validator_exception_invalid (value : Int)
    (pred : Int → Except Unit Bool) (hnz : value ≠ 0)
    (hraise : pred value = Except.error ()) :
    validate_value value (some pred) = false := by
  simp [validate_value, hnz, hraise]

/-- Witness for C10 at value 1 with an always-raising validator. -/
theorem c10_validator_exception_invalid_witness :
    validate_value 1 (some (fun _ => Except.error ())) = false :=
  c10_validator_exception_invalid 1 (fun _ => Except.error ())
    (by decide) rfl

/-- Python runtime values crossing the password write path: a str, a
bytes object, or None. -/
inductive PyVal where
  | pstr : String → PyVal
  | pbytes : List Nat → PyVal
  | pnone : PyVal
deriving DecidableEq, Repr

/-- Python 3 equality as used by the expression
value == HIDDEN_PASSWORD in passwordwrite: str equals str and bytes
equals bytes by content, but a bytes object never equals a str
object. -/
def pyEq : PyVal → PyVal → Bool
  | PyVal.pstr a, PyVal.pstr b => decide (a = b)
  | PyVal.pbytes a, PyVal.pbytes b => decide (a = b)
  | PyVal.pnone, PyVal.pnone => true
  | _, _ => false

/-- Embedding of passwordwrite (lines 465-469): returns None when the
supplied value equals the str constant HIDDEN_PASSWORD, the value
itself otherwise. -/
def passwordwrite (value : PyVal) : PyVal :=
  if pyEq value (PyVal.pstr HIDDEN_PASSWORD) then PyVal.pnone else value

/-- Embedding of str.encode(STR_ENCODING) for the ASCII strings of this
path: the UTF-8 code units of an ASCII string are its code points. -/
def encode (s : String) : List Nat := s.data.map (fun c => c.toNat)

/-- Embedding of struct.pack_into with a counted s format
(set_fieldvalue, lines 2798-2807): the n bytes at addr are replaced by
the value bytes truncated to n and padded with NUL. -/
def pack_str (dobj : List Nat) (addr n : Nat) (b : List Nat) :
    List Nat :=
  dobj.take addr ++ (b.take n ++ List.replicate (n - (b.take n).length) 0)
    ++ dobj.drop (addr + n)

/-- Embedding of the non-indexed string branch of set_field (lines
3029-3046 and 3070-3092) for a field whose write converter is
passwordwrite: readwrite_converter (lines 2434-2452) applies
passwordwrite to restoremapping.encode(STR_ENCODING), a bytes object;
a None result sets skip = True and nothing is written, a bytes result
is length-checked against the field capacity minus one and then packed
into the buffer at the field address by set_fieldvalue. -/
def set_field_string_pw (dobj : List Nat) (baseaddr maxsize : Nat)
    (restoremapping : String) : Except Nat (List Nat) :=
  match passwordwrite (PyVal.pbytes (encode restoremapping)) with
  | PyVal.pnone => Except.ok dobj
  | PyVal.pbytes b =>
    if b.length ≤ maxsize - 1 then
      Except.ok (pack_str dobj baseaddr maxsize b)
    else Except.error ExitCode.RESTORE_DATA_ERROR
  | PyVal.pstr _ => Except.error ExitCode.INTERNAL_ERROR

/-- C9 divergence: passwordwrite detects the masked-password sentinel
only on a str value, but set_field hands it the encoded bytes of the
restore string, and in Python 3 bytes never compare equal to str; the
sentinel therefore goes undetected, the write is not skipped, and the
stored password bytes (here "secret" padded with NUL in a 9-byte
field) are overwritten with literal asterisks. -/
theorem c9_masked_password_not_skipped :
    passwordwrite (PyVal.pstr HIDDEN_PASSWORD) = PyVal.pnone ∧
    passwordwrite (PyVal.pbytes (encode HIDDEN_PASSWORD)) =
      PyVal.pbytes (encode HIDDEN_PASSWORD) ∧
    passwordwrite (PyVal.pbytes (encode HIDDEN_PASSWORD)) ≠
      PyVal.pnone ∧
    set_field_string_pw [115, 101, 99, 114, 101, 116, 0, 0, 0] 0 9
        HIDDEN_PASSWORD =
      Except.ok [42, 42, 42, 42, 42, 42, 42, 42, 0] ∧
    ([42, 42, 42, 42, 42, 42, 42, 42, 0] : List Nat) ≠
      [115, 101, 99, 114, 101, 116, 0, 0, 0] := by
  exact ⟨by decide, by decide, by decide, by rfl, by decide⟩

end DecodeConfig
